import Mathlib

/-
  Verification of the AntiTheft device agent (src/device_agent/agent.py and
  src/device_agent/prey_lock_screen.py) against its natural-language
  specification.

  The Python code is shallowly embedded: each Lean definition mirrors the
  control flow of the corresponding Python function.  Network calls, the
  filesystem and spawned processes are modelled as explicit environment
  records supplied to the functions; the haversine distance helper
  _calculate_distance (float trigonometry) is abstracted as a distance
  function parameter of type Coord -> Coord -> Int, since every behaviour
  claimed of the agent depends only on threshold comparisons of its results.
-/

namespace AntiTheft

/-! ## Path validation (DeviceAgent._is_path_valid, agent.py lines 2159-2181) -/

/-- Normalisation of one path character: the composition of the two string
    passes of _is_path_valid (agent.py 2161), path.replace of the slash by a
    backslash followed by upper().  Both Python passes act character by
    character (the replace pattern is a single character), so their
    composition is this character map. -/
def normChar (c : Char) : Char := if c = '/' then '\\' else c.toUpper

/-- path.replace('/', '\\').upper() (agent.py 2161), character by character. -/
def normalizePath (p : String) : String := String.mk (p.data.map normChar)

/-- Python str.startswith: the candidate prefix is an initial segment of the
    string. -/
def strStartsWith (p pre : String) : Bool := pre.data.isPrefixOf p.data

/-- Python str.strip(): drop whitespace from both ends. -/
def pyStrip (s : String) : String :=
  String.mk (((s.data.dropWhile Char.isWhitespace).reverse.dropWhile
    Char.isWhitespace).reverse)

/-- The deny-list of system directory prefixes from agent.py lines 2168-2175. -/
def blocked_paths : List String :=
  [ "D:\\WINDOWS"
  , "D:\\PROGRAM FILES"
  , "D:\\PROGRAM FILES (X86)"
  , "D:\\SYSTEM VOLUME INFORMATION"
  , "D:\\$RECYCLE.BIN"
  , "D:\\RECYCLER" ]

/-- Shallow embedding of DeviceAgent._is_path_valid (agent.py 2159-2181):
    normalize separators, uppercase, require the D:\ root, reject anything
    whose normalized form starts with a deny-list entry. -/
def is_path_valid (path : String) : Bool :=
  let path_normalized := normalizePath path
  if !(strStartsWith path_normalized "D:\\") then
    false
  else if blocked_paths.any (fun blocked => strStartsWith path_normalized blocked) then
    false
  else
    true

/-! ## Wipe executor (DeviceAgent.execute_wipe, agent.py lines 2263-2426)

    The filesystem is abstracted: each path entry of a wipe job is absent, a
    single file, or a directory whose bottom-up os.walk(topdown=False)
    traversal is given as a list of (number of files, number of
    subdirectories) per walk step, together with a flag saying whether the
    root directory is empty (removable) after the walk.  All deletions are
    modelled as succeeding, matching the happy path of the Python code. -/

inductive FsNode where
  | absent : FsNode
  | file : FsNode
  | dir (walk : List (Nat × Nat)) (rootEmptyAfter : Bool) : FsNode
deriving DecidableEq, Repr

/-- One observable event of execute_wipe: a deletion, or a wipe-status report
    posted to /v1/wipe/update_status (status, progress_percentage,
    files_deleted, total_files, and the invalid paths named in the error
    message of a failed report). -/
inductive WipeEvent where
  | deletedFile : WipeEvent
  | deletedDir : WipeEvent
  | report (status : String) (progress : Nat) (filesDeleted : Nat)
      (totalFiles : Nat) (invalid : Option (List String)) : WipeEvent
deriving DecidableEq, Repr

/-- Items counted by the first pass of execute_wipe (agent.py 2316-2331):
    1 for a file entry, len(files)+len(dirs) summed over walk steps for a
    directory entry, 0 for a missing path. -/
def countEntry : FsNode → Nat
  | .absent => 0
  | .file => 1
  | .dir walk _ => (walk.map (fun s => s.1 + s.2)).sum

def countItems (fs : String → FsNode) (paths : List String) : Nat :=
  (paths.map (fun p => countEntry (fs p))).sum

/-- progress = int(items_deleted / total_items * 100), agent.py 2349. -/
def progressOf (d total : Nat) : Nat := d * 100 / total

/-- Delete n files inside one os.walk step (agent.py 2367-2382): each file
    deletion increments items_deleted, and a progress report is sent when the
    running count is divisible by 10 (agent.py 2374). -/
def delWalkFiles (total : Nat) : Nat → Nat → Nat × List WipeEvent
  | d, 0 => (d, [])
  | d, n + 1 =>
      let d1 := d + 1
      let ev : List WipeEvent :=
        if d1 % 10 = 0 ∧ 0 < total then
          [.report "in_progress" (progressOf d1 total) d1 total none]
        else []
      let rest := delWalkFiles total d1 n
      (rest.1, WipeEvent.deletedFile :: (ev ++ rest.2))

/-- Walk the bottom-up traversal of a directory entry (agent.py 2365-2391):
    per step delete the files (with batched progress reports), then the
    subdirectories (rmdir, no report). -/
def delWalk (total : Nat) : Nat → List (Nat × Nat) → Nat × List WipeEvent
  | d, [] => (d, [])
  | d, step :: rest =>
      let files := delWalkFiles total d step.1
      let d2 := files.1 + step.2
      let tail := delWalk total d2 rest
      (tail.1, files.2 ++ List.replicate step.2 WipeEvent.deletedDir ++ tail.2)

/-- Delete one path entry of the job (agent.py 2334-2406).  A file entry is
    unlinked and immediately followed by a progress report (agent.py
    2340-2353); a directory entry is walked bottom-up, and its root is
    removed afterwards when empty (agent.py 2393-2399). -/
def delEntry (fs : String → FsNode) (total d : Nat) (p : String) :
    Nat × List WipeEvent :=
  match fs p with
  | .absent => (d, [])
  | .file =>
      let d1 := d + 1
      let ev : List WipeEvent :=
        if 0 < total then
          [.report "in_progress" (progressOf d1 total) d1 total none]
        else []
      (d1, WipeEvent.deletedFile :: ev)
  | .dir walk rootEmptyAfter =>
      let w := delWalk total d walk
      if rootEmptyAfter then (w.1 + 1, w.2 ++ [WipeEvent.deletedDir])
      else (w.1, w.2)

def delList (fs : String → FsNode) (total : Nat) :
    Nat → List String → Nat × List WipeEvent
  | d, [] => (d, [])
  | d, p :: rest =>
      let e := delEntry fs total d p
      let tail := delList fs total e.1 rest
      (tail.1, e.2 ++ tail.2)

/-- Shallow embedding of DeviceAgent.execute_wipe (agent.py 2263-2426) with
    the job paths and operation id already in hand.  All paths are validated
    first; any invalid path fails the whole job with a single failed report
    naming the offending paths and files_deleted = 0 (agent.py 2293-2303).
    Otherwise an initial in_progress report is sent, the two passes run, and
    a terminal completed report is sent (agent.py 2305-2421). -/
def executeWipe (fs : String → FsNode) (paths : List String) : List WipeEvent :=
  if paths.any (fun p => !(is_path_valid p)) then
    [.report "failed" 0 0 0 (some (paths.filter (fun p => !(is_path_valid p))))]
  else
    let total := countItems fs paths
    let del := delList fs total 0 paths
    WipeEvent.report "in_progress" 0 0 0 none ::
      del.2 ++ [WipeEvent.report "completed" 100 del.1 total none]

/-- Number of deletion events (files or directories) in a wipe trace. -/
def numDeletions (evs : List WipeEvent) : Nat :=
  evs.countP (fun e =>
    match e with
    | .deletedFile => true
    | .deletedDir => true
    | .report _ _ _ _ _ => false)

/-- The files_deleted counters of the in_progress reports in a trace that
    follow at least one deletion (i.e. excluding the initial report). -/
def inProgressCounts (evs : List WipeEvent) : List Nat :=
  (evs.filterMap (fun e =>
    match e with
    | .report s _ d _ _ => if s = "in_progress" ∧ 0 < d then some d else none
    | _ => none))

/-! ## Lock passwords (agent.py 1726-1729, 1936-1946; prey_lock_screen.py
    71-81, 731-757) -/

/-- Password chosen by the dispatch path of check_for_commands (agent.py
    1726-1729): the value extracted from the activity logs, or the hard-coded
    default when extraction produced nothing or an empty string. -/
def dispatchPassword (logsPassword : Option String) : String :=
  match logsPassword with
  | none => "antitheft2024"
  | some p => if p = "" then "antitheft2024" else p

/-- Password normalisation at the top of execute_lock (agent.py 1938-1946):
    strip if non-empty else default, then default again if the stripped
    value is empty. -/
def effectiveLockPassword (password : String) : String :=
  let p := if password = "" then "antitheft2024" else pyStrip password
  if p = "" then "antitheft2024" else p

/-- Password normalisation of PreyLockScreen.__init__ (prey_lock_screen.py
    71-81); the Python code is character-for-character the same check as in
    execute_lock. -/
def preyInitPassword (password : String) : String :=
  let p := if password = "" then "antitheft2024" else pyStrip password
  if p = "" then "antitheft2024" else p

/-- Password selection of the prey_lock_screen __main__ block
    (prey_lock_screen.py 731-757): the lock-state file takes priority, then
    the first command line argument, then the default; a final cleanup
    replaces an empty value by the default. -/
def lockScreenMainPassword (statePw : Option String) (argvPw : Option String) :
    String :=
  let p :=
    match statePw with
    | some sp => sp
    | none =>
        match argvPw with
        | some a => pyStrip a
        | none => "antitheft2024"
  if p = "" then "antitheft2024" else pyStrip p

/-! ## Lock coordinator (DeviceAgent.execute_lock, agent.py 1936-2118)

    The environment captures the observable facts execute_lock branches on:
    whether the liveness port 12345 already accepts connections, whether a
    lock-screen script exists, and the fate of the first spawn and of the
    single retry.  The outcome type includes an osNativeLock constructor for
    the OS lock mechanism the code deliberately never invokes (agent.py
    2086-2091, 2104-2108, 2115-2118), so that its absence is provable rather
    than definitional. -/

structure LockEnv where
  portOpen : Bool
  scriptExists : Bool
  spawnRaises : Bool
  firstExitsImmediately : Bool
  retryRaises : Bool
  retryExitsImmediately : Bool
deriving DecidableEq, Repr

inductive LockOutcome where
  | alreadyRunning : LockOutcome
  | running (password : String) : LockOutcome
  | runningAfterRetry (password : String) : LockOutcome
  | notLocked : LockOutcome
  | osNativeLock : LockOutcome
deriving DecidableEq, Repr

/-- Shallow embedding of DeviceAgent.execute_lock (agent.py 1936-2118).
    Port already open: skip the duplicate (1967-1978).  Script absent: log
    and leave unlocked (2103-2108).  Spawn raising propagates to the outer
    handler which logs and leaves the device unlocked (2037-2039,
    2110-2118).  Immediate exit: retry once; a failing retry logs and leaves
    the device unlocked (2041-2091). -/
def executeLock (env : LockEnv) (password : String) : LockOutcome :=
  let pw := effectiveLockPassword password
  if env.portOpen then .alreadyRunning
  else if !env.scriptExists then .notLocked
  else if env.spawnRaises then .notLocked
  else if env.firstExitsImmediately then
    if env.retryRaises then .notLocked
    else if env.retryExitsImmediately then .notLocked
    else .runningAfterRetry pw
  else .running pw

/-- An outcome under which a custom lock-screen process holds the device. -/
def LockOutcome.customAlive : LockOutcome → Bool
  | .alreadyRunning => true
  | .running _ => true
  | .runningAfterRetry _ => true
  | .notLocked => false
  | .osNativeLock => false

/-! ## Control loop command check (DeviceAgent.check_for_commands, agent.py
    1530-1918), restricted to the command dispatch, lock handling and local
    unlock detection.  The pending-wipe poll at the end of the function is
    modelled separately by executeWipe. -/

structure AgentState where
  status : String
  lastLockStatus : Option String
deriving DecidableEq, Repr

structure PollEnv where
  serverStatus : String
  geofenceBreach : Bool
  portOpen : Bool
  fileExists : Bool
  logsPassword : Option String
  scriptExists : Bool
  spawnRaises : Bool
  firstExitsImmediately : Bool
  retryRaises : Bool
  retryExitsImmediately : Bool
  locationAvailable : Bool
deriving DecidableEq, Repr

inductive Command where
  | lock : Command
  | alarm : Command
  | wipe : Command
deriving DecidableEq, Repr

/-- Command derivation (agent.py 1616-1625): a command exists only when the
    server status differs from the local one. -/
def statusToCommand (localStatus serverStatus : String) : Option Command :=
  if serverStatus = localStatus then none
  else if serverStatus = "locked" ∨ serverStatus = "lock" then some .lock
  else if serverStatus = "alarm" then some .alarm
  else if serverStatus = "wiped" ∨ serverStatus = "wipe" then some .wipe
  else none

inductive AgentAction where
  | writeLockState (password message : String) : AgentAction
  | lockAttempt (outcome : LockOutcome) : AgentAction
  | pushStatus (status : String) (withLocation : Bool) : AgentAction
  | alarmCmd : AgentAction
  | wipeCmd : AgentAction
deriving DecidableEq, Repr

def mkLockEnv (env : PollEnv) : LockEnv :=
  { portOpen := env.portOpen
  , scriptExists := env.scriptExists
  , spawnRaises := env.spawnRaises
  , firstExitsImmediately := env.firstExitsImmediately
  , retryRaises := env.retryRaises
  , retryExitsImmediately := env.retryExitsImmediately }

/-- WiFi geofence breach handling (agent.py 1552-1614): a detected breach
    sets the local status to alarm before command derivation. -/
def applyGeofence (st : AgentState) (breach : Bool) : AgentState :=
  if breach ∧ st.status ≠ "alarm" then { st with status := "alarm" } else st

/-- Status synchronisation at the tail of the no-command branch (agent.py
    1854-1867). -/
def syncStatus (st : AgentState) (serverStatus : String) : AgentState :=
  let st1 := if serverStatus ≠ st.status then { st with status := serverStatus } else st
  if serverStatus = "active" ∧ st1.lastLockStatus = some "locked" then
    { status := "active", lastLockStatus := none }
  else st1

/-- Shallow embedding of the command-handling slice of
    DeviceAgent.check_for_commands (agent.py 1530-1867).

    Lock command (1627-1780): the lock_screen_running check only selects the
    log line and an early status update; both branches fall through to the
    password extraction, the rewrite of lock_state.json and the
    execute_command call, and execute_lock itself refuses to double-spawn
    via the liveness port.  Afterwards the local status is set to the server
    status and last_lock_status to locked.

    No command (1788-1867): if locally locked, the agent declares a local
    unlock exactly when lock_state.json is absent and the liveness port no
    longer accepts connections, pushing an active status update immediately,
    with or without a location fix; then the plain status sync runs. -/
def checkForCommands (st0 : AgentState) (env : PollEnv) :
    AgentState × List AgentAction :=
  let st := applyGeofence st0 env.geofenceBreach
  match statusToCommand st.status env.serverStatus with
  | some .lock =>
      let pw := dispatchPassword env.logsPassword
      let outcome := executeLock (mkLockEnv env) pw
      ({ status := env.serverStatus, lastLockStatus := some "locked" },
       [.writeLockState pw "", .lockAttempt outcome])
  | some .alarm =>
      ({ status := env.serverStatus, lastLockStatus := none }, [.alarmCmd])
  | some .wipe =>
      ({ status := env.serverStatus, lastLockStatus := none }, [.wipeCmd])
  | none =>
      let unlockDetected :=
        st.status = "locked" ∧ st.lastLockStatus = some "locked" ∧
          env.fileExists = false ∧ env.portOpen = false
      if unlockDetected then
        let st1 : AgentState := { status := "active", lastLockStatus := none }
        (syncStatus st1 env.serverStatus,
         [.pushStatus "active" env.locationAvailable])
      else
        (syncStatus st env.serverStatus, [])

/-- Number of lock sessions (successfully started lock-screen processes)
    recorded in an action list. -/
def sessionsCreated (acts : List AgentAction) : Nat :=
  acts.countP (fun a =>
    match a with
    | .lockAttempt (.running _) => true
    | .lockAttempt (.runningAfterRetry _) => true
    | _ => false)

/-! ## Location resolver (DeviceAgent.get_location, agent.py 474-852, and
    DeviceAgent.report_status, agent.py 1281-1447)

    Coordinates are integer pairs in hundredths of a degree (so the
    hard-coded KL centre 3.14, 101.69 is the pair 314, 10169), and distances
    and accuracies are integers in metres.  The haversine helper
    _calculate_distance (agent.py 1224-1239, float trigonometry) is
    abstracted as the dist field of the environment; every location decision
    of the agent is a threshold comparison on its result. -/

def Coord : Type := ℤ × ℤ

instance : DecidableEq Coord := instDecidableEqProd

inductive Source where
  | satellite : Source
  | wifi : Source
  | ip : Source
deriving DecidableEq, Repr

structure Fix where
  coord : Coord
  source : Source
deriving DecidableEq

structure LocState where
  cache : Option Fix
  gpsFailedCount : Nat
deriving DecidableEq

/-- The hard-coded KL-area centre (3.14, 101.69), agent.py 690-691, 770-771,
    1331-1332, in hundredths of a degree: ISP-level IP geolocation resolves
    here. -/
def klCenter : Coord := (314, 10169)

/-- The hard-coded Seremban point (2.67, 101.99), agent.py 1290-1291, in
    hundredths of a degree. -/
def serembanCenter : Coord := (267, 10199)

/-- Outcome of one Windows-location attempt of the escalating-timeout loop
    (agent.py 511-673). -/
inductive GpsOutcome where
  | success (lat lng : ℤ) (accuracy : Option ℤ) : GpsOutcome
  | notSupported : GpsOutcome
  | failCont : GpsOutcome
deriving DecidableEq

/-- The acceptance window applied to a reported GPS accuracy (agent.py 617):
    accuracy strictly greater than 0 and strictly below 10000 metres. -/
def gpsAccept (accuracy : ℤ) : Bool :=
  decide (0 < accuracy) && decide (accuracy < 10000)

/-- The escalating-timeout GPS loop of get_location Method 1 (agent.py
    511-673).  An accuracy-carrying result is accepted iff gpsAccept holds;
    acceptance caches the fix and resets gps_failed_count (agent.py
    632-634); rejection continues with the next strategy without touching
    the counter (agent.py 636-639).  A result with no reported accuracy is
    accepted and cached without resetting the counter (agent.py 640-643).
    NOT_SUPPORTED increments the counter and breaks (agent.py 644-652);
    timeouts and errors increment the counter and continue (agent.py
    653-673). -/
def runGps : LocState → List GpsOutcome → Option Fix × LocState
  | st, [] => (none, st)
  | st, o :: rest =>
      match o with
      | .success lat lng (some a) =>
          if gpsAccept a then
            let f : Fix := ⟨(lat, lng), .satellite⟩
            (some f, { cache := some f, gpsFailedCount := 0 })
          else
            runGps st rest
      | .success lat lng none =>
          let f : Fix := ⟨(lat, lng), .satellite⟩
          (some f, { st with cache := some f })
      | .notSupported =>
          (none, { st with gpsFailedCount := st.gpsFailedCount + 1 })
      | .failCont =>
          runGps { st with gpsFailedCount := st.gpsFailedCount + 1 } rest

structure GoogleResp where
  lat : ℤ
  lng : ℤ
  accuracy : ℤ
deriving DecidableEq

structure LocEnv where
  isWindows : Bool
  gpsOutcomes : List GpsOutcome
  googleEnabled : Bool
  googleResp : Option GoogleResp
  ipResult : Option Coord
  forceGpsResult : Option Coord
  dist : Coord → Coord → ℤ

/-- Shallow embedding of DeviceAgent._get_google_geolocation (agent.py
    1140-1222): None on transport failure or missing access points;
    otherwise coordinates are range-checked (1183-1185, the -90..90 and
    -180..180 degree bounds scaled to hundredths of a degree) and the result is
    rejected when its reported accuracy is 5000 m or more (1196-1210). -/
def googleGeolocation (env : LocEnv) : Option Coord :=
  match env.googleResp with
  | none => none
  | some r =>
      if r.lat < -9000 ∨ 9000 < r.lat ∨ r.lng < -18000 ∨ 18000 < r.lng then none
      else if r.accuracy < 5000 then some (r.lat, r.lng)
      else none

/-- A cascade step the resolver actually attempted. -/
inductive LocStep where
  | gps : LocStep
  | google : LocStep
  | ipStep : LocStep
  | forcedGps : LocStep
deriving DecidableEq, Repr

structure LocResult where
  fix : Option Fix
  state : LocState
  steps : List LocStep

/-- Method 3 of get_location plus the all-sources-failed fallbacks (agent.py
    720-852).  With an IP responder: a cached fix at least 20 km from the KL
    centre is preferred and returned regardless of how far the IP fix is
    from it (agent.py 777-796); otherwise the fresh IP fix is returned and
    deliberately not cached (agent.py 799-813).  With no IP responder: the
    cached fix is returned if present, after one forced GPS retry when the
    cache is inside the KL area (agent.py 815-840); with no cache the
    resolver yields None (agent.py 842-844). -/
def ipPhase (env : LocEnv) (st : LocState) (steps : List LocStep) : LocResult :=
  let steps := steps ++ [LocStep.ipStep]
  match env.ipResult with
  | some ip =>
      match st.cache with
      | some c =>
          if env.dist klCenter c.coord ≥ 20000 then
            ⟨some c, st, steps⟩
          else
            ⟨some ⟨ip, .ip⟩, st, steps⟩
      | none => ⟨some ⟨ip, .ip⟩, st, steps⟩
  | none =>
      match st.cache with
      | some c =>
          if env.dist klCenter c.coord < 20000 then
            if env.isWindows then
              match env.forceGpsResult with
              | some g =>
                  let f : Fix := ⟨g, .satellite⟩
                  ⟨some f, { st with cache := some f }, steps ++ [LocStep.forcedGps]⟩
              | none => ⟨some c, st, steps⟩
            else ⟨some c, st, steps⟩
          else ⟨some c, st, steps⟩
      | none => ⟨none, st, steps⟩

/-- Method 2 of get_location (agent.py 680-718).  A fix accepted by
    _get_google_geolocation is rejected when inside the KL area (696, 717-718,
    falling through to IP geolocation).  Outside the KL area, with a cached
    last-known fix more than 100 km away, the whole resolver returns None
    (704-710); otherwise the fix is accepted and cached (711-716). -/
def googlePhase (env : LocEnv) (st : LocState) (steps : List LocStep) : LocResult :=
  if env.googleEnabled && env.isWindows then
    let steps := steps ++ [LocStep.google]
    match googleGeolocation env with
    | some g =>
        if env.dist klCenter g ≥ 20000 then
          match st.cache with
          | some c =>
              if env.dist c.coord g > 100000 then
                ⟨none, st, steps⟩
              else
                let f : Fix := ⟨g, .wifi⟩
                ⟨some f, { st with cache := some f }, steps⟩
          | none =>
              let f : Fix := ⟨g, .wifi⟩
              ⟨some f, { st with cache := some f }, steps⟩
        else ipPhase env st steps
    | none => ipPhase env st steps
  else ipPhase env st steps

/-- Shallow embedding of DeviceAgent.get_location (agent.py 474-852):
    Windows location attempts first, then WiFi-based Google geolocation,
    then IP geolocation with its cache-preference rules. -/
def getLocation (env : LocEnv) (st : LocState) : LocResult :=
  if env.isWindows then
    let gps := runGps st env.gpsOutcomes
    match gps.1 with
    | some f => ⟨some f, gps.2, [LocStep.gps]⟩
    | none => googlePhase env gps.2 [LocStep.gps]
  else
    googlePhase env st []

structure ReportEnv where
  loc : LocEnv
  pushOk : Bool

/-- The Seremban cache-clearing step at the top of report_status (agent.py
    1287-1302): a cached fix within 5 km of the hard-coded Seremban point is
    dropped and the failure counter reset, to force a fresh resolve. -/
def serembanClear (env : LocEnv) (st0 : LocState) : LocState :=
  match st0.cache with
  | some c =>
      if env.dist serembanCenter c.coord < 5000 then
        ({ cache := none, gpsFailedCount := 0 } : LocState)
      else st0
  | none => st0

/-- Resolution as performed by report_status (agent.py 1304-1328): call
    get_location, and if it yields nothing retry GPS once via
    _force_gps_location (caching a success); otherwise the report is
    skipped. -/
def resolveForReport (env : ReportEnv) (st : LocState) : Option (Fix × LocState) :=
  let r := getLocation env.loc st
  match r.fix with
  | some f => some (f, r.state)
  | none =>
      if env.loc.isWindows then
        match env.loc.forceGpsResult with
        | some g =>
            some (⟨g, .satellite⟩,
              { cache := some ⟨g, .satellite⟩, gpsFailedCount := 0 })
        | none => none
      else none

/-- The KL substitution of report_status (agent.py 1330-1348): a fresh fix
    inside the KL area is replaced by the cached fix when the cache lies
    outside the KL area. -/
def klSubstitute (env : LocEnv) (f : Fix) (cache : Option Fix) : Fix :=
  if env.dist klCenter f.coord < 20000 then
    match cache with
    | some c => if env.dist klCenter c.coord > 20000 then c else f
    | none => f
  else f

/-- Whether the payload is flagged location_unchanged (agent.py 1352-1390):
    only when a cache exists, is not in the Seremban area, and the fresh fix
    is within 50 m of it. -/
def unchangedFlag (env : LocEnv) (cache : Option Fix) (locFinal : Fix) : Bool :=
  match cache with
  | some c =>
      if env.dist serembanCenter c.coord < 5000 then false
      else decide (env.dist c.coord locFinal.coord < 50)
  | none => false

/-- The post-push caching step of report_status (agent.py 1425-1437): after
    a 200 response, cache the reported fix unless the payload was flagged
    unchanged or the fix lies within 20 km of the KL centre. -/
def finalCacheStep (env : ReportEnv) (st2 : LocState) (locFinal : Fix)
    (unchanged : Bool) : LocState × Bool :=
  if env.pushOk then
    if unchanged = false ∧ env.loc.dist klCenter locFinal.coord ≥ 20000 then
      ({ st2 with cache := some locFinal }, true)
    else (st2, true)
  else (st2, false)

/-- Shallow embedding of DeviceAgent.report_status (agent.py 1281-1447),
    returning the updated location state and whether a status update was
    posted: Seremban clearing, resolution with one forced-GPS retry, KL
    substitution, unchanged detection, post, post-push caching. -/
def reportStatus (env : ReportEnv) (st0 : LocState) : LocState × Bool :=
  let st := serembanClear env.loc st0
  match resolveForReport env st with
  | none => ((getLocation env.loc st).state, false)
  | some (f, st2) =>
      let locFinal := klSubstitute env.loc f st2.cache
      let unchanged := unchangedFlag env.loc st2.cache locFinal
      finalCacheStep env st2 locFinal unchanged

/-- A planar surrogate for the haversine distance used to instantiate the
    abstract dist parameter on concrete witnesses: 1110 metres per hundredth
    of a degree of Manhattan displacement.  At every concrete point used in
    this file its comparisons against the source thresholds (5 km, 20 km,
    100 km) agree with the true haversine values. -/
def distFlat (a b : Coord) : ℤ := 1110 * (|a.1 - b.1| + |a.2 - b.2|)

/-! # Claims -/

/-- C10: _is_path_valid is a pure string-prefix check: it accepts exactly
    the paths whose slash-normalised uppercase form starts with the D:\ root
    and starts with none of the six deny-list strings; consequently the
    sibling path D:\Windows2\x is rejected while the volume root D:\ itself
    is accepted. -/
theorem C10_path_validation_prefix_check :
    (∀ p : String,
        is_path_valid p = true ↔
          (strStartsWith (normalizePath p) "D:\\" = true ∧
           ∀ b ∈ blocked_paths, strStartsWith (normalizePath p) b = false)) ∧
    is_path_valid "D:\\Windows2\\x" = false ∧
    is_path_valid "D:\\" = true := by
  refine ⟨fun p => ?_, by decide, by decide⟩
  cases h1 : strStartsWith (normalizePath p) "D:\\" with
  | false =>
      simp [is_path_valid, h1]
  | true =>
      cases h2 : blocked_paths.any
          (fun blocked => strStartsWith (normalizePath p) blocked) with
      | false =>
          rw [List.any_eq_false] at h2
          have hvalid : is_path_valid p = true := by
            simp [is_path_valid, h1, List.any_eq_false.mpr h2]
          refine iff_of_true hvalid ⟨rfl, fun b hb => ?_⟩
          have := h2 b hb
          revert this
          cases strStartsWith (normalizePath p) b <;> simp
      | true =>
          rw [List.any_eq_true] at h2
          obtain ⟨b, hb, hbt⟩ := h2
          have hinvalid : is_path_valid p = false := by
            simp [is_path_valid, h1, List.any_eq_true.mpr ⟨b, hb, hbt⟩]
          refine iff_of_false (by simp [hinvalid]) ?_
          rintro ⟨-, hall⟩
          have := hall b hb
          rw [hbt] at this
          exact absurd this (by simp)

theorem C10_witness :
    is_path_valid "D:\\DATA\\NOTES.TXT" = true ∧
    is_path_valid "D:\\Windows2\\x" = false :=
  ⟨(C10_path_validation_prefix_check.1 "D:\\DATA\\NOTES.TXT").mpr
      ⟨by decide, by decide⟩,
   C10_path_validation_prefix_check.2.1⟩

/-- C1: a wipe job whose path list contains at least one invalid path fails
    as a whole: execute_wipe emits exactly one report, a failed report
    naming the offending paths with files_deleted = 0, and performs no file
    or directory deletion. -/
theorem C1_invalid_path_fails_whole_job (fs : String → FsNode)
    (paths : List String)
    (h : paths.any (fun p => !(is_path_valid p)) = true) :
    executeWipe fs paths =
      [WipeEvent.report "failed" 0 0 0
        (some (paths.filter (fun p => !(is_path_valid p))))] ∧
    numDeletions (executeWipe fs paths) = 0 ∧
    ∀ s pr d t inv, WipeEvent.report s pr d t inv ∈ executeWipe fs paths →
      s = "failed" ∧ d = 0 := by
  have he : executeWipe fs paths =
      [WipeEvent.report "failed" 0 0 0
        (some (paths.filter (fun p => !(is_path_valid p))))] := by
    simp [executeWipe, h]
  refine ⟨he, ?_, ?_⟩
  · rw [he]; simp [numDeletions]
  · intro s pr d t inv hm
    rw [he] at hm
    simp only [List.mem_singleton, WipeEvent.report.injEq] at hm
    exact ⟨hm.1, hm.2.2.1⟩

theorem C1_witness :
    executeWipe (fun _ => FsNode.absent) ["D:\\Data\\a.txt", "D:\\Windows\\x"] =
      [WipeEvent.report "failed" 0 0 0 (some ["D:\\Windows\\x"])] ∧
    numDeletions
      (executeWipe (fun _ => FsNode.absent)
        ["D:\\Data\\a.txt", "D:\\Windows\\x"]) = 0 := by
  have h := C1_invalid_path_fails_whole_job (fun _ => FsNode.absent)
    ["D:\\Data\\a.txt", "D:\\Windows\\x"] (by decide)
  refine ⟨?_, h.2.1⟩
  rw [h.1]
  decide

/-- The wipe job of the C8 counterexample: two individual files listed as
    top-level paths. -/
def fsC8 : String → FsNode :=
  fun p =>
    if p = "D:\\DATA\\A.TXT" ∨ p = "D:\\DATA\\B.TXT" then FsNode.file
    else FsNode.absent

def jobC8 : List String := ["D:\\DATA\\A.TXT", "D:\\DATA\\B.TXT"]

/-- C8 counterexample: for a job listing two individual files, execute_wipe
    sends an in-progress report after each single deletion (files_deleted 1
    and 2), i.e. once per individual deletion, contradicting the claim that
    in-progress reports are only ever sent once per fixed batch of deleted
    items and never per individual deletion. -/
theorem C8_counterexample :
    executeWipe fsC8 jobC8 =
      [ WipeEvent.report "in_progress" 0 0 0 none
      , WipeEvent.deletedFile
      , WipeEvent.report "in_progress" 50 1 2 none
      , WipeEvent.deletedFile
      , WipeEvent.report "in_progress" 100 2 2 none
      , WipeEvent.report "completed" 100 2 2 none ] ∧
    numDeletions (executeWipe fsC8 jobC8) = 2 ∧
    inProgressCounts (executeWipe fsC8 jobC8) = [1, 2] :=
  ⟨by decide, by decide, by decide⟩

/-- C8 amended: progress reports during directory-tree deletion are batched,
    sent only when the cumulative deleted count is divisible by ten; but each
    path entry that is itself a file emits an in-progress report on its own
    individual deletion, so the bounded cadence does not hold for jobs that
    list individual files. -/
theorem C8_amended_cadence :
    (∀ total n d s pr k t inv,
        WipeEvent.report s pr k t inv ∈ (delWalkFiles total d n).2 →
        k % 10 = 0) ∧
    (∀ fs total d p, fs p = FsNode.file → 0 < total →
        (delEntry fs total d p).2 =
          [WipeEvent.deletedFile,
           WipeEvent.report "in_progress" (progressOf (d + 1) total)
             (d + 1) total none]) := by
  constructor
  · intro total n
    induction n with
    | zero =>
        intro d s pr k t inv hm
        simp [delWalkFiles] at hm
    | succ m ih =>
        intro d s pr k t inv hm
        simp only [delWalkFiles, List.mem_cons, List.mem_append] at hm
        rcases hm with h1 | h2 | h3
        · exact absurd h1 (by simp)
        · by_cases hc : (d + 1) % 10 = 0 ∧ 0 < total
          · rw [if_pos hc] at h2
            simp only [List.mem_singleton, WipeEvent.report.injEq] at h2
            rw [h2.2.2.1]
            exact hc.1
          · rw [if_neg hc] at h2
            simp at h2
        · exact ih (d + 1) s pr k t inv h3
  · intro fs total d p hfile htotal
    simp [delEntry, hfile, htotal]

theorem C8_witness :
    10 % 10 = 0 ∧
    (delEntry fsC8 2 0 "D:\\DATA\\A.TXT").2 =
      [WipeEvent.deletedFile,
       WipeEvent.report "in_progress" (progressOf 1 2) 1 2 none] :=
  ⟨C8_amended_cadence.1 20 1 9 "in_progress" (progressOf 10 20) 10 20 none
      (by decide),
   C8_amended_cadence.2 fsC8 2 0 "D:\\DATA\\A.TXT" (by decide) (by decide)⟩

/-- C2: execute_lock never invokes an OS-native lock on any path: every
    outcome either has a custom lock-screen process alive holding the
    normalised configured secret, or leaves the device unlocked; and
    whenever the spawn fails (an exception, or an immediate exit followed by
    a failing retry) the outcome is notLocked. -/
theorem C2_no_os_native_lock_fallback :
    (∀ env pw, executeLock env pw ≠ LockOutcome.osNativeLock) ∧
    (∀ env pw, (executeLock env pw).customAlive = true ∨
        executeLock env pw = LockOutcome.notLocked) ∧
    (∀ env pw, (executeLock env pw).customAlive = true →
        executeLock env pw = LockOutcome.alreadyRunning ∨
        executeLock env pw = LockOutcome.running (effectiveLockPassword pw) ∨
        executeLock env pw =
          LockOutcome.runningAfterRetry (effectiveLockPassword pw)) ∧
    (∀ env pw, env.portOpen = false → env.scriptExists = true →
        env.spawnRaises = false → env.firstExitsImmediately = true →
        (env.retryRaises = true ∨ env.retryExitsImmediately = true) →
        executeLock env pw = LockOutcome.notLocked) ∧
    (∀ env pw, env.portOpen = false → env.scriptExists = true →
        env.spawnRaises = true →
        executeLock env pw = LockOutcome.notLocked) := by
  refine ⟨?_, ?_, ?_, ?_, ?_⟩ <;>
    rintro ⟨p, s, r, f, rr, re⟩ pw <;>
      cases p <;> cases s <;> cases r <;> cases f <;> cases rr <;> cases re <;>
        simp [executeLock, LockOutcome.customAlive]

theorem C2_witness :
    executeLock
      ⟨false, true, false, true, true, false⟩ "secret123" =
        LockOutcome.notLocked ∧
    executeLock
      ⟨false, true, true, false, false, false⟩ "secret123" =
        LockOutcome.notLocked :=
  ⟨C2_no_os_native_lock_fallback.2.2.2.1
      ⟨false, true, false, true, true, false⟩ "secret123"
      rfl rfl rfl rfl (Or.inl rfl),
   C2_no_os_native_lock_fallback.2.2.2.2
      ⟨false, true, true, false, false, false⟩ "secret123"
      rfl rfl rfl⟩

/-- C3: with geofencing quiet, a first delivery of desired state locked to
    an agent whose local status differs dispatches the lock and creates
    exactly one lock session, setting the local status to locked; any
    further poll that again delivers locked creates no session and emits no
    lock attempt at all; and execute_lock refuses to spawn while the
    liveness port already accepts connections. -/
theorem C3_lock_dispatch_idempotent (st0 : AgentState) (env1 env2 : PollEnv)
    (hst : st0.status = "active")
    (h1s : env1.serverStatus = "locked") (h1g : env1.geofenceBreach = false)
    (h1p : env1.portOpen = false) (h1sc : env1.scriptExists = true)
    (h1r : env1.spawnRaises = false) (h1f : env1.firstExitsImmediately = false)
    (h2s : env2.serverStatus = "locked") (h2g : env2.geofenceBreach = false) :
    sessionsCreated (checkForCommands st0 env1).2 = 1 ∧
    (checkForCommands st0 env1).1.status = "locked" ∧
    sessionsCreated
      (checkForCommands (checkForCommands st0 env1).1 env2).2 = 0 ∧
    ((checkForCommands (checkForCommands st0 env1).1 env2).2.countP
      (fun a => match a with
        | AgentAction.lockAttempt _ => true
        | _ => false)) = 0 ∧
    (∀ e pw, e.portOpen = true →
        executeLock e pw = LockOutcome.alreadyRunning) := by
  have hgeo1 : applyGeofence st0 env1.geofenceBreach = st0 := by
    simp [applyGeofence, h1g]
  have hcmd1 : statusToCommand st0.status env1.serverStatus = some Command.lock := by
    simp [statusToCommand, hst, h1s]
  have hrun1 : checkForCommands st0 env1 =
      ({ status := env1.serverStatus, lastLockStatus := some "locked" },
       [AgentAction.writeLockState (dispatchPassword env1.logsPassword) "",
        AgentAction.lockAttempt
          (executeLock (mkLockEnv env1) (dispatchPassword env1.logsPassword))]) := by
    simp only [checkForCommands, hgeo1, hcmd1]
  have hlock1 : executeLock (mkLockEnv env1) (dispatchPassword env1.logsPassword) =
      LockOutcome.running
        (effectiveLockPassword (dispatchPassword env1.logsPassword)) := by
    simp [executeLock, mkLockEnv, h1p, h1sc, h1r, h1f]
  have hcmd2 : statusToCommand "locked" env2.serverStatus = none := by
    simp [statusToCommand, h2s]
  have hstate1 : (checkForCommands st0 env1).1 =
      (⟨"locked", some "locked"⟩ : AgentState) := by
    rw [hrun1]
    simp [h1s]
  have hg2 : applyGeofence (⟨"locked", some "locked"⟩ : AgentState)
      env2.geofenceBreach = (⟨"locked", some "locked"⟩ : AgentState) := by
    simp [applyGeofence, h2g]
  have hacts2 :
      (checkForCommands (⟨"locked", some "locked"⟩ : AgentState) env2).2 = [] ∨
      (checkForCommands (⟨"locked", some "locked"⟩ : AgentState) env2).2 =
        [AgentAction.pushStatus "active" env2.locationAvailable] := by
    simp only [checkForCommands, hg2, hcmd2]
    by_cases hu : env2.fileExists = false ∧ env2.portOpen = false
    · right
      simp [hu]
    · left
      simp [hu]
  refine ⟨?_, ?_, ?_, ?_, ?_⟩
  · rw [hrun1, hlock1]
    simp [sessionsCreated]
  · rw [hstate1]
  · rw [hstate1]
    rcases hacts2 with h | h <;> rw [h] <;> simp [sessionsCreated]
  · rw [hstate1]
    rcases hacts2 with h | h <;> rw [h] <;> simp
  · intro e pw hp
    simp [executeLock, hp]

theorem C3_witness :
    sessionsCreated
      (checkForCommands ⟨"active", none⟩
        ⟨"locked", false, false, false, none, true, false, false, false,
          false, true⟩).2 = 1 ∧
    sessionsCreated
      (checkForCommands
        (checkForCommands ⟨"active", none⟩
          ⟨"locked", false, false, false, none, true, false, false, false,
            false, true⟩).1
        ⟨"locked", false, true, true, none, true, false, false, false,
          false, true⟩).2 = 0 := by
  have h := C3_lock_dispatch_idempotent ⟨"active", none⟩
    ⟨"locked", false, false, false, none, true, false, false, false,
      false, true⟩
    ⟨"locked", false, true, true, none, true, false, false, false,
      false, true⟩
    rfl rfl rfl rfl rfl rfl rfl rfl rfl
  exact ⟨h.1, h.2.2.1⟩

/-- C9: when no unlock password can be extracted from the activity logs, or
    the extracted or supplied password is empty, every layer falls back to
    the hard-coded default antitheft2024 — the dispatch path of
    check_for_commands, execute_lock, PreyLockScreen.__init__ and the lock
    screen main block — and the lock is still dispatched rather than
    skipped. -/
theorem C9_default_password_fallback :
    (∀ l, dispatchPassword l ≠ "") ∧
    dispatchPassword none = "antitheft2024" ∧
    dispatchPassword (some "") = "antitheft2024" ∧
    effectiveLockPassword "" = "antitheft2024" ∧
    preyInitPassword "" = "antitheft2024" ∧
    lockScreenMainPassword none none = "antitheft2024" ∧
    lockScreenMainPassword (some "") none = "antitheft2024" ∧
    (∀ st0 env, env.geofenceBreach = false → env.logsPassword = none →
        statusToCommand st0.status env.serverStatus = some Command.lock →
        (checkForCommands st0 env).2 =
          [AgentAction.writeLockState "antitheft2024" "",
           AgentAction.lockAttempt
             (executeLock (mkLockEnv env) "antitheft2024")]) ∧
    (∀ e : LockEnv, e.portOpen = false → e.scriptExists = true →
        e.spawnRaises = false → e.firstExitsImmediately = false →
        executeLock e "antitheft2024" = LockOutcome.running "antitheft2024") := by
  refine ⟨?_, by decide, by decide, by decide, by decide, by decide,
    by decide, ?_, ?_⟩
  · intro l
    match l with
    | none => decide
    | some p =>
        by_cases hp : p = "" <;> simp [dispatchPassword, hp]
  · intro st0 env hg hlp hcmd
    have hap : applyGeofence st0 env.geofenceBreach = st0 := by
      simp [applyGeofence, hg]
    simp [checkForCommands, hap, hcmd, hlp, dispatchPassword]
  · intro e hp hs hr hf
    simp [executeLock, hp, hs, hr, hf,
      show effectiveLockPassword "antitheft2024" = "antitheft2024" from by decide]

/-- The poll environment of the C9 witness: server demands lock, no password
    in the activity logs, spawn succeeds. -/
def envC9 : PollEnv :=
  ⟨"locked", false, false, false, none, true, false, false, false,
    false, true⟩

theorem C9_witness :
    (checkForCommands ⟨"active", none⟩ envC9).2 =
      [AgentAction.writeLockState "antitheft2024" "",
       AgentAction.lockAttempt (executeLock (mkLockEnv envC9) "antitheft2024")] ∧
    executeLock (mkLockEnv envC9) "antitheft2024" =
      LockOutcome.running "antitheft2024" :=
  ⟨C9_default_password_fallback.2.2.2.2.2.2.2.1 ⟨"active", none⟩ envC9
      rfl rfl (by decide),
   C9_default_password_fallback.2.2.2.2.2.2.2.2 (mkLockEnv envC9)
      rfl rfl rfl rfl⟩

/-- C5: the agent declares a local unlock — pushing an active status update,
    with or without a location fix — exactly when no command was derived
    from the server status, the local state records a live lock session, and
    both liveness signals are gone: lock_state.json absent and port 12345 no
    longer accepting; while either signal is present no unlock is declared,
    and the declaration sets the local status to active. -/
theorem C5_unlock_requires_both_signals (st : AgentState) (env : PollEnv)
    (hg : env.geofenceBreach = false) :
    ((∃ w, AgentAction.pushStatus "active" w ∈ (checkForCommands st env).2) ↔
      (statusToCommand st.status env.serverStatus = none ∧
       st.status = "locked" ∧ st.lastLockStatus = some "locked" ∧
       env.fileExists = false ∧ env.portOpen = false)) ∧
    ((statusToCommand st.status env.serverStatus = none ∧
       st.status = "locked" ∧ st.lastLockStatus = some "locked" ∧
       env.fileExists = false ∧ env.portOpen = false) →
      (checkForCommands st env).2 =
        [AgentAction.pushStatus "active" env.locationAvailable] ∧
      (env.serverStatus = "active" →
        (checkForCommands st env).1 = ⟨"active", none⟩)) := by
  have hap : applyGeofence st env.geofenceBreach = st := by
    simp [applyGeofence, hg]
  cases hcmd : statusToCommand st.status env.serverStatus with
  | some c =>
      constructor
      · cases c <;> simp [checkForCommands, hap, hcmd]
      · rintro ⟨hnone, -⟩
        exact absurd hnone (by simp)
  | none =>
      by_cases hu : st.status = "locked" ∧ st.lastLockStatus = some "locked" ∧
          env.fileExists = false ∧ env.portOpen = false
      · have hrun : checkForCommands st env =
            (syncStatus (⟨"active", none⟩ : AgentState) env.serverStatus,
             [AgentAction.pushStatus "active" env.locationAvailable]) := by
          simp only [checkForCommands, hap, hcmd]
          rw [if_pos hu]
        refine ⟨?_, fun _ => ⟨by rw [hrun], fun hss => ?_⟩⟩
        · rw [hrun]
          exact iff_of_true ⟨env.locationAvailable, by simp⟩ ⟨rfl, hu⟩
        · rw [hrun]
          simp [syncStatus, hss]
      · have hrun : (checkForCommands st env).2 = [] := by
          simp only [checkForCommands, hap, hcmd]
          rw [if_neg hu]
        refine ⟨?_, ?_⟩
        · rw [hrun]
          constructor
          · rintro ⟨w, hw⟩
            simp at hw
          · rintro ⟨-, h2, h3, h4, h5⟩
            exact absurd ⟨h2, h3, h4, h5⟩ hu
        · rintro ⟨-, h2, h3, h4, h5⟩
          exact absurd ⟨h2, h3, h4, h5⟩ hu

/-- The poll environment of the C5 witness: server still says locked, no
    geofence breach, lock_state.json absent, port closed, no location fix
    available. -/
def envC5 : PollEnv :=
  ⟨"locked", false, false, false, none, true, false, false, false,
    false, false⟩

theorem C5_witness :
    (checkForCommands ⟨"locked", some "locked"⟩ envC5).2 =
      [AgentAction.pushStatus "active" false] :=
  ((C5_unlock_requires_both_signals ⟨"locked", some "locked"⟩ envC5 rfl).2
    ⟨by decide, rfl, rfl, rfl, rfl⟩).1

/-- C6: a Windows-location result carrying a reported accuracy is accepted
    exactly when the accuracy is strictly between 0 and 10000 metres: a
    15000 m fix is rejected and the loop moves on, with the resolver then
    cascading to the WiFi-based Google geolocation step, while an accepted
    accuracy-carrying fix is cached as last_known_location and resets the
    consecutive GPS-failure counter to 0. -/
theorem C6_gps_accuracy_window :
    (∀ a : ℤ, gpsAccept a = true ↔ (0 < a ∧ a < 10000)) ∧
    gpsAccept 15000 = false ∧
    (∀ st lat lng a rest, gpsAccept a = true →
        runGps st (GpsOutcome.success lat lng (some a) :: rest) =
          (some ⟨(lat, lng), Source.satellite⟩,
           { cache := some ⟨(lat, lng), Source.satellite⟩,
             gpsFailedCount := 0 })) ∧
    (∀ st lat lng rest,
        runGps st (GpsOutcome.success lat lng (some 15000) :: rest) =
          runGps st rest) ∧
    (∀ env st lat lng, env.isWindows = true →
        env.gpsOutcomes = [GpsOutcome.success lat lng (some 15000)] →
        getLocation env st = googlePhase env st [LocStep.gps]) := by
  refine ⟨?_, by decide, ?_, ?_, ?_⟩
  · intro a
    simp [gpsAccept]
  · intro st lat lng a rest h
    simp [runGps, h]
  · intro st lat lng rest
    simp [runGps, show gpsAccept 15000 = false from by decide]
  · intro env st lat lng hw hout
    have hnone : runGps st env.gpsOutcomes = (none, st) := by
      rw [hout]
      simp [runGps, show gpsAccept 15000 = false from by decide]
    simp [getLocation, hw, hnone]

/-- The resolver environment of the C6 witness: one GPS attempt reporting a
    15000 m accuracy, rejected, with the Google step configured. -/
def envC6 : LocEnv :=
  { isWindows := true
  , gpsOutcomes := [GpsOutcome.success 500 10000 (some 15000)]
  , googleEnabled := true
  , googleResp := some ⟨500, 10000, 30⟩
  , ipResult := none
  , forceGpsResult := none
  , dist := distFlat }

theorem C6_witness :
    runGps (⟨none, 3⟩ : LocState) [GpsOutcome.success 267 10199 (some 50)] =
      (some ⟨(267, 10199), Source.satellite⟩,
       { cache := some ⟨(267, 10199), Source.satellite⟩,
         gpsFailedCount := 0 }) ∧
    getLocation envC6 (⟨none, 3⟩ : LocState) =
      googlePhase envC6 (⟨none, 3⟩ : LocState) [LocStep.gps] :=
  ⟨C6_gps_accuracy_window.2.2.1 ⟨none, 3⟩ 267 10199 50 [] (by decide),
   C6_gps_accuracy_window.2.2.2.2 envC6 ⟨none, 3⟩ 500 10000 rfl rfl⟩

/-- The IP cascade is attempted in every branch of ipPhase: its attempted
    step list always records the IP step. -/
theorem ipPhase_contains_ipStep (env : LocEnv) (st : LocState)
    (steps : List LocStep) : LocStep.ipStep ∈ (ipPhase env st steps).steps := by
  unfold ipPhase
  cases env.ipResult with
  | some ip =>
      cases st.cache with
      | some c =>
          by_cases h : env.dist klCenter c.coord ≥ 20000 <;> simp [h]
      | none => simp
  | none =>
      cases st.cache with
      | some c =>
          by_cases h : env.dist klCenter c.coord < 20000
          · cases hw : env.isWindows with
            | true =>
                cases env.forceGpsResult with
                | some g => simp [h, hw]
                | none => simp [h, hw]
            | false => simp [h, hw]
          · simp [h]
      | none => simp

/-- The resolver environment of the C7 counterexample: GPS fails, the Google
    step returns an in-range fix with good accuracy 1665 km away from the
    cached last-known-good fix, and an IP responder is available. -/
def envC7 : LocEnv :=
  { isWindows := true
  , gpsOutcomes := [GpsOutcome.failCont]
  , googleEnabled := true
  , googleResp := some ⟨2000, 10000, 100⟩
  , ipResult := some (100, 100)
  , forceGpsResult := none
  , dist := distFlat }

def stC7 : LocState := ⟨some ⟨(500, 10000), Source.satellite⟩, 0⟩

/-- C7 counterexample: the Google geolocation result is rejected for an
    implausible jump (more than 100 km from the cached fix) and the resolver
    returns None immediately, never attempting the IP geolocation step even
    though an IP responder is available; so the claim that a rejected WiFi
    fix always leads to the IP step is false on this input (the fix is
    indeed not cached). -/
theorem C7_counterexample :
    googleGeolocation envC7 = some (2000, 10000) ∧
    envC7.dist (500, 10000) (2000, 10000) > 100000 ∧
    envC7.ipResult = some (100, 100) ∧
    (getLocation envC7 stC7).fix = none ∧
    (getLocation envC7 stC7).steps = [LocStep.gps, LocStep.google] ∧
    LocStep.ipStep ∉ (getLocation envC7 stC7).steps ∧
    (getLocation envC7 stC7).state.cache = stC7.cache :=
  ⟨by decide, by decide, by decide, by decide, by decide, by decide,
   by decide⟩

/-- C7 amended: a Google geolocation result rejected for poor accuracy
    (5 km or more) is not cached and the resolver proceeds to the IP
    geolocation step; but a result rejected for an implausible jump (more
    than 100 km from the cached last-known-good fix) makes the resolver
    return None at once, without attempting the IP step and without caching
    anything. -/
theorem C7_amended_jump_rejection_aborts (env : LocEnv) (st : LocState)
    (steps : List LocStep) (r : GoogleResp)
    (hen : env.googleEnabled = true) (hw : env.isWindows = true)
    (hresp : env.googleResp = some r)
    (hrange : ¬(r.lat < -9000 ∨ 9000 < r.lat ∨ r.lng < -18000 ∨
        18000 < r.lng)) :
    (r.accuracy ≥ 5000 →
      googlePhase env st steps = ipPhase env st (steps ++ [LocStep.google]) ∧
      LocStep.ipStep ∈ (googlePhase env st steps).steps) ∧
    (∀ c, r.accuracy < 5000 →
      env.dist klCenter (r.lat, r.lng) ≥ 20000 →
      st.cache = some c →
      env.dist c.coord (r.lat, r.lng) > 100000 →
      googlePhase env st steps =
        ⟨none, st, steps ++ [LocStep.google]⟩) := by
  constructor
  · intro hacc
    have hg : googleGeolocation env = none := by
      simp only [googleGeolocation, hresp]
      rw [if_neg hrange, if_neg (by omega : ¬(r.accuracy < 5000))]
    have heq : googlePhase env st steps =
        ipPhase env st (steps ++ [LocStep.google]) := by
      simp [googlePhase, hen, hw, hg]
    exact ⟨heq, heq ▸ ipPhase_contains_ipStep env st (steps ++ [LocStep.google])⟩
  · intro c hacc hkl hcache hjump
    have hg : googleGeolocation env = some (r.lat, r.lng) := by
      simp only [googleGeolocation, hresp]
      rw [if_neg hrange, if_pos hacc]
    simp [googlePhase, hen, hw, hg, hkl, hcache, hjump]

/-- The C7 witness environment for the accuracy-rejection branch: the same
    situation as the counterexample but with a 6000 m reported accuracy. -/
def envC7acc : LocEnv :=
  { isWindows := true
  , gpsOutcomes := [GpsOutcome.failCont]
  , googleEnabled := true
  , googleResp := some ⟨2000, 10000, 6000⟩
  , ipResult := some (100, 100)
  , forceGpsResult := none
  , dist := distFlat }

theorem C7_witness :
    googlePhase envC7acc stC7 [LocStep.gps] =
      ipPhase envC7acc stC7 ([LocStep.gps] ++ [LocStep.google]) ∧
    googlePhase envC7 stC7 [LocStep.gps] =
      ⟨none, stC7, [LocStep.gps] ++ [LocStep.google]⟩ :=
  ⟨((C7_amended_jump_rejection_aborts envC7acc stC7 [LocStep.gps]
      ⟨2000, 10000, 6000⟩ rfl rfl rfl (by decide)).1 (by decide)).1,
   (C7_amended_jump_rejection_aborts envC7 stC7 [LocStep.gps]
      ⟨2000, 10000, 100⟩ rfl rfl rfl (by decide)).2
      ⟨(500, 10000), Source.satellite⟩ (by decide) (by decide) rfl
      (by decide)⟩

/-! Cache-flow lemmas for the resolver, used to settle the claim about IP
    fixes never displacing a better-source cache. -/

/-- The GPS loop either fails leaving the cache untouched, or succeeds
    returning and caching a satellite-sourced fix. -/
theorem runGps_spec (l : List GpsOutcome) (st : LocState) :
    ((runGps st l).1 = none ∧ (runGps st l).2.cache = st.cache) ∨
    (∃ f, (runGps st l).1 = some f ∧ (runGps st l).2.cache = some f ∧
      f.source = Source.satellite) := by
  induction l generalizing st with
  | nil => exact Or.inl ⟨rfl, rfl⟩
  | cons o rest ih =>
      cases o with
      | success lat lng acc =>
          cases acc with
          | some a =>
              by_cases h : gpsAccept a = true
              · exact Or.inr ⟨⟨(lat, lng), Source.satellite⟩,
                  by simp [runGps, h], by simp [runGps, h], rfl⟩
              · have hfalse : gpsAccept a = false := by
                  simpa using h
                simpa [runGps, hfalse] using ih st
          | none =>
              exact Or.inr ⟨⟨(lat, lng), Source.satellite⟩,
                by simp [runGps], by simp [runGps], rfl⟩
      | notSupported => exact Or.inl ⟨by simp [runGps], by simp [runGps]⟩
      | failCont =>
          simpa [runGps] using
            ih { st with gpsFailedCount := st.gpsFailedCount + 1 }

/-- Cache flow of the IP phase: the cache is either untouched or overwritten
    by the returned forced-GPS satellite fix; and an ip-sourced returned fix
    leaves the cache untouched and is only produced when there is no cache,
    when the returned fix is the cache itself, or when the cache lies inside
    the KL area. -/
theorem ipPhase_spec (env : LocEnv) (st : LocState) (steps : List LocStep) :
    ((ipPhase env st steps).state.cache = st.cache ∨
      ∃ f, (ipPhase env st steps).fix = some f ∧
        (ipPhase env st steps).state.cache = some f ∧
        f.source ≠ Source.ip) ∧
    (∀ f, (ipPhase env st steps).fix = some f → f.source = Source.ip →
      (ipPhase env st steps).state.cache = st.cache ∧
      (st.cache = none ∨ ∃ c, st.cache = some c ∧
        (c = f ∨ env.dist klCenter c.coord < 20000))) := by
  cases hip : env.ipResult with
  | some ip =>
      cases hc : st.cache with
      | some c =>
          by_cases h : env.dist klCenter c.coord ≥ 20000
          · have heq : ipPhase env st steps =
                ⟨some c, st, steps ++ [LocStep.ipStep]⟩ := by
              simp [ipPhase, hip, hc, h]
            rw [heq, hc]
            refine ⟨Or.inl rfl, fun f hf hsrc => ?_⟩
            simp only [Option.some.injEq] at hf
            exact ⟨rfl, Or.inr ⟨c, rfl, Or.inl hf⟩⟩
          · have heq : ipPhase env st steps =
                ⟨some ⟨ip, Source.ip⟩, st, steps ++ [LocStep.ipStep]⟩ := by
              simp [ipPhase, hip, hc, h]
            rw [heq, hc]
            refine ⟨Or.inl rfl, fun f hf hsrc => ?_⟩
            exact ⟨rfl, Or.inr ⟨c, rfl, Or.inr (lt_of_not_ge h)⟩⟩
      | none =>
          have heq : ipPhase env st steps =
              ⟨some ⟨ip, Source.ip⟩, st, steps ++ [LocStep.ipStep]⟩ := by
            simp [ipPhase, hip, hc]
          rw [heq, hc]
          exact ⟨Or.inl rfl, fun f hf hsrc => ⟨rfl, Or.inl rfl⟩⟩
  | none =>
      cases hc : st.cache with
      | some c =>
          by_cases h : env.dist klCenter c.coord < 20000
          · cases hw : env.isWindows with
            | true =>
                cases hg : env.forceGpsResult with
                | some g =>
                    have heq : ipPhase env st steps =
                        ⟨some ⟨g, Source.satellite⟩,
                         { st with cache := some ⟨g, Source.satellite⟩ },
                         steps ++ [LocStep.ipStep] ++ [LocStep.forcedGps]⟩ := by
                      simp [ipPhase, hip, hc, h, hw, hg]
                    rw [heq]
                    refine ⟨Or.inr ⟨⟨g, Source.satellite⟩, rfl, rfl, by simp⟩,
                      fun f hf hsrc => ?_⟩
                    simp only [Option.some.injEq] at hf
                    rw [← hf] at hsrc
                    exact absurd hsrc (by simp)
                | none =>
                    have heq : ipPhase env st steps =
                        ⟨some c, st, steps ++ [LocStep.ipStep]⟩ := by
                      simp [ipPhase, hip, hc, h, hw, hg]
                    rw [heq, hc]
                    refine ⟨Or.inl rfl, fun f hf hsrc => ?_⟩
                    simp only [Option.some.injEq] at hf
                    exact ⟨rfl, Or.inr ⟨c, rfl, Or.inl hf⟩⟩
            | false =>
                have heq : ipPhase env st steps =
                    ⟨some c, st, steps ++ [LocStep.ipStep]⟩ := by
                  simp [ipPhase, hip, hc, h, hw]
                rw [heq, hc]
                refine ⟨Or.inl rfl, fun f hf hsrc => ?_⟩
                simp only [Option.some.injEq] at hf
                exact ⟨rfl, Or.inr ⟨c, rfl, Or.inl hf⟩⟩
          · have heq : ipPhase env st steps =
                ⟨some c, st, steps ++ [LocStep.ipStep]⟩ := by
              simp [ipPhase, hip, hc, h]
            rw [heq, hc]
            refine ⟨Or.inl rfl, fun f hf hsrc => ?_⟩
            simp only [Option.some.injEq] at hf
            exact ⟨rfl, Or.inr ⟨c, rfl, Or.inl hf⟩⟩
      | none =>
          have heq : ipPhase env st steps =
              ⟨none, st, steps ++ [LocStep.ipStep]⟩ := by
            simp [ipPhase, hip, hc]
          rw [heq, hc]
          exact ⟨Or.inl rfl, fun f hf hsrc => by simp at hf⟩

/-- Cache flow of the Google phase, inheriting the IP-phase facts: the cache
    is untouched or overwritten by the returned non-ip fix, and ip-sourced
    results leave the cache alone and presuppose no cache, the cache itself,
    or a KL-area cache. -/
theorem googlePhase_spec (env : LocEnv) (st : LocState)
    (steps : List LocStep) :
    ((googlePhase env st steps).state.cache = st.cache ∨
      ∃ f, (googlePhase env st steps).fix = some f ∧
        (googlePhase env st steps).state.cache = some f ∧
        f.source ≠ Source.ip) ∧
    (∀ f, (googlePhase env st steps).fix = some f → f.source = Source.ip →
      (googlePhase env st steps).state.cache = st.cache ∧
      (st.cache = none ∨ ∃ c, st.cache = some c ∧
        (c = f ∨ env.dist klCenter c.coord < 20000))) := by
  by_cases hgate : (env.googleEnabled && env.isWindows) = true
  · cases hg : googleGeolocation env with
    | some g =>
        by_cases hkl : env.dist klCenter g ≥ 20000
        · cases hc : st.cache with
          | some c =>
              by_cases hjump : env.dist c.coord g > 100000
              · have heq : googlePhase env st steps =
                    ⟨none, st, steps ++ [LocStep.google]⟩ := by
                  simp [googlePhase, hgate, hg, hkl, hc, hjump]
                rw [heq, hc]
                exact ⟨Or.inl rfl, fun f hf hsrc => by simp at hf⟩
              · have heq : googlePhase env st steps =
                    ⟨some ⟨g, Source.wifi⟩,
                     { st with cache := some ⟨g, Source.wifi⟩ },
                     steps ++ [LocStep.google]⟩ := by
                  simp [googlePhase, hgate, hg, hkl, hc, hjump]
                rw [heq]
                refine ⟨Or.inr ⟨⟨g, Source.wifi⟩, rfl, rfl, by simp⟩,
                  fun f hf hsrc => ?_⟩
                simp only [Option.some.injEq] at hf
                rw [← hf] at hsrc
                exact absurd hsrc (by simp)
          | none =>
              have heq : googlePhase env st steps =
                  ⟨some ⟨g, Source.wifi⟩,
                   { st with cache := some ⟨g, Source.wifi⟩ },
                   steps ++ [LocStep.google]⟩ := by
                simp [googlePhase, hgate, hg, hkl, hc]
              rw [heq]
              refine ⟨Or.inr ⟨⟨g, Source.wifi⟩, rfl, rfl, by simp⟩,
                fun f hf hsrc => ?_⟩
              simp only [Option.some.injEq] at hf
              rw [← hf] at hsrc
              exact absurd hsrc (by simp)
        · have heq : googlePhase env st steps =
              ipPhase env st (steps ++ [LocStep.google]) := by
            simp [googlePhase, hgate, hg, hkl]
          rw [heq]
          exact ipPhase_spec env st (steps ++ [LocStep.google])
    | none =>
        have heq : googlePhase env st steps =
            ipPhase env st (steps ++ [LocStep.google]) := by
          simp [googlePhase, hgate, hg]
        rw [heq]
        exact ipPhase_spec env st (steps ++ [LocStep.google])
  · have heq : googlePhase env st steps = ipPhase env st steps := by
      simp [googlePhase, hgate]
    rw [heq]
    exact ipPhase_spec env st steps

/-- Cache flow of the whole resolver. -/
theorem getLocation_spec (env : LocEnv) (st : LocState) :
    ((getLocation env st).state.cache = st.cache ∨
      ∃ f, (getLocation env st).fix = some f ∧
        (getLocation env st).state.cache = some f ∧
        f.source ≠ Source.ip) ∧
    (∀ f, (getLocation env st).fix = some f → f.source = Source.ip →
      (getLocation env st).state.cache = st.cache ∧
      (st.cache = none ∨ ∃ c, st.cache = some c ∧
        (c = f ∨ env.dist klCenter c.coord < 20000))) := by
  cases hw : env.isWindows with
  | false =>
      have heq : getLocation env st = googlePhase env st [] := by
        simp [getLocation, hw]
      rw [heq]
      exact googlePhase_spec env st []
  | true =>
      rcases runGps_spec env.gpsOutcomes st with ⟨hn, hcache⟩ | ⟨f, hf, hfc, hfs⟩
      · have heq : getLocation env st =
            googlePhase env (runGps st env.gpsOutcomes).2 [LocStep.gps] := by
          simp [getLocation, hw, hn]
        rw [heq]
        have hgspec := googlePhase_spec env (runGps st env.gpsOutcomes).2
          [LocStep.gps]
        rw [hcache] at hgspec
        exact hgspec
      · have heq : getLocation env st =
            ⟨some f, (runGps st env.gpsOutcomes).2, [LocStep.gps]⟩ := by
          simp [getLocation, hw, hf]
        rw [heq]
        refine ⟨Or.inr ⟨f, rfl, hfc, by rw [hfs]; simp⟩, fun f2 hf2 hsrc => ?_⟩
        simp only [Option.some.injEq] at hf2
        rw [← hf2, hfs] at hsrc
        exact absurd hsrc (by simp)

/-- The KL substitution yields either the fresh fix or the cached fix. -/
theorem klSubstitute_cases (envL : LocEnv) (f : Fix) (cache : Option Fix) :
    klSubstitute envL f cache = f ∨
    ∃ c2, cache = some c2 ∧ klSubstitute envL f cache = c2 := by
  by_cases h : envL.dist klCenter f.coord < 20000
  · cases hc : cache with
    | some c =>
        by_cases h2 : envL.dist klCenter c.coord > 20000
        · exact Or.inr ⟨c, rfl, by simp [klSubstitute, h, h2]⟩
        · exact Or.inl (by simp [klSubstitute, h, h2])
    | none => exact Or.inl (by simp [klSubstitute, h])
  · exact Or.inl (by simp [klSubstitute, h])

/-- The post-push caching step either leaves the cache alone or stores the
    reported fix, and it stores it only when the fix lies at least 20 km
    from the KL centre. -/
theorem finalCacheStep_cases (env : ReportEnv) (st2 : LocState)
    (locFinal : Fix) (unchanged : Bool) :
    (finalCacheStep env st2 locFinal unchanged).1.cache = st2.cache ∨
    ((finalCacheStep env st2 locFinal unchanged).1.cache = some locFinal ∧
      env.loc.dist klCenter locFinal.coord ≥ 20000) := by
  by_cases hp : env.pushOk = true
  · by_cases hcond : unchanged = false ∧
        env.loc.dist klCenter locFinal.coord ≥ 20000
    · exact Or.inr ⟨by simp [finalCacheStep, hp, hcond], hcond.2⟩
    · exact Or.inl (by simp [finalCacheStep, hp, hcond])
  · exact Or.inl (by simp [finalCacheStep, hp])

/-- A successful resolve of report_status is either the resolver result or
    the forced-GPS retry of agent.py 1307-1318. -/
theorem resolveForReport_cases (env : ReportEnv) (st : LocState) (f : Fix)
    (st2 : LocState) (h : resolveForReport env st = some (f, st2)) :
    ((getLocation env.loc st).fix = some f ∧
      st2 = (getLocation env.loc st).state) ∨
    (∃ g, env.loc.forceGpsResult = some g ∧ f = ⟨g, Source.satellite⟩ ∧
      st2 = ⟨some ⟨g, Source.satellite⟩, 0⟩) := by
  cases hfix : (getLocation env.loc st).fix with
  | some f0 =>
      have heq : resolveForReport env st =
          some (f0, (getLocation env.loc st).state) := by
        simp [resolveForReport, hfix]
      rw [heq] at h
      simp only [Option.some.injEq, Prod.mk.injEq] at h
      rcases h with ⟨h1, h2⟩
      subst h1
      exact Or.inl ⟨rfl, h2.symm⟩
  | none =>
      cases hw : env.loc.isWindows with
      | true =>
          cases hg : env.loc.forceGpsResult with
          | some g =>
              have heq : resolveForReport env st =
                  some (⟨g, Source.satellite⟩,
                    ⟨some ⟨g, Source.satellite⟩, 0⟩) := by
                simp [resolveForReport, hfix, hw, hg]
              rw [heq] at h
              simp only [Option.some.injEq, Prod.mk.injEq] at h
              exact Or.inr ⟨g, rfl, h.1.symm, h.2.symm⟩
          | none =>
              have heq : resolveForReport env st = none := by
                simp [resolveForReport, hfix, hw, hg]
              rw [heq] at h
              exact absurd h (by simp)
      | false =>
          have heq : resolveForReport env st = none := by
            simp [resolveForReport, hfix, hw]
          rw [heq] at h
          exact absurd h (by simp)

/-- C4 amended: get_location never caches an ip-sourced fix it did not
    already hold, and report_status only ends up replacing a better-source
    cached fix by an IP-geolocation fix in two situations the code carves
    out: the Seremban invalidation (a cache within 5 km of the hard-coded
    Seremban point is cleared before resolving, excluded here by
    hypothesis), and the moved-away case in which the cached fix lies
    inside the KL bad region while the newly cached IP fix lies outside
    it. -/
theorem C4_amended_ip_never_displaces_better_cache :
    (∀ env st c', (getLocation env st).state.cache = some c' →
        c'.source = Source.ip → st.cache = some c') ∧
    (∀ env st0 c c', st0.cache = some c → c.source ≠ Source.ip →
        ¬(env.loc.dist serembanCenter c.coord < 5000) →
        (reportStatus env st0).1.cache = some c' →
        c'.source = Source.ip →
        env.loc.dist klCenter c.coord < 20000 ∧
        env.loc.dist klCenter c'.coord ≥ 20000) := by
  have part1 : ∀ env st c', (getLocation env st).state.cache = some c' →
      c'.source = Source.ip → st.cache = some c' := by
    intro env st c' hc hsrc
    rcases (getLocation_spec env st).1 with hpres | ⟨f, hfix, hfc, hfs⟩
    · rw [hpres] at hc
      exact hc
    · rw [hfc] at hc
      simp only [Option.some.injEq] at hc
      rw [← hc] at hsrc
      exact absurd hsrc hfs
  refine ⟨part1, ?_⟩
  intro env st0 c c' hc hcip hser hres hsrc
  have hclear : serembanClear env.loc st0 = st0 := by
    simp [serembanClear, hc, hser]
  have hrs : reportStatus env st0 =
      (match resolveForReport env st0 with
       | none => ((getLocation env.loc st0).state, false)
       | some (f, st2) =>
           finalCacheStep env st2 (klSubstitute env.loc f st2.cache)
             (unchangedFlag env.loc st2.cache
               (klSubstitute env.loc f st2.cache))) := by
    simp only [reportStatus, hclear]
  cases hrr : resolveForReport env st0 with
  | none =>
      rw [hrs, hrr] at hres
      simp only at hres
      have hst0 := part1 env.loc st0 c' hres hsrc
      rw [hc] at hst0
      simp only [Option.some.injEq] at hst0
      rw [hst0] at hcip
      exact absurd hsrc hcip
  | some pair =>
      obtain ⟨f, st2⟩ := pair
      rw [hrs, hrr] at hres
      simp only at hres
      rcases finalCacheStep_cases env st2 (klSubstitute env.loc f st2.cache)
          (unchangedFlag env.loc st2.cache (klSubstitute env.loc f st2.cache))
        with hpres | ⟨hset, hklSet⟩
      · rw [hpres] at hres
        rcases resolveForReport_cases env st0 f st2 hrr with
          ⟨hfix, hst2⟩ | ⟨g, hg, hfg, hst2⟩
        · rw [hst2] at hres
          have hst0 := part1 env.loc st0 c' hres hsrc
          rw [hc] at hst0
          simp only [Option.some.injEq] at hst0
          rw [hst0] at hcip
          exact absurd hsrc hcip
        · rw [hst2] at hres
          simp only [Option.some.injEq] at hres
          rw [← hres] at hsrc
          exact absurd hsrc (by simp)
      · rw [hset] at hres
        simp only [Option.some.injEq] at hres
        rcases klSubstitute_cases env.loc f st2.cache with hlf | ⟨c2, hc2, hlf⟩
        · have hcf : c' = f := by rw [← hres, hlf]
          rcases resolveForReport_cases env st0 f st2 hrr with
            ⟨hfix, hst2⟩ | ⟨g, hg, hfg, hst2⟩
          · have hspec := (getLocation_spec env.loc st0).2 f hfix
              (by rw [← hcf]; exact hsrc)
            rcases hspec.2 with hnone | ⟨cc, hcc, hcase⟩
            · rw [hc] at hnone
              exact absurd hnone (by simp)
            · rw [hc] at hcc
              simp only [Option.some.injEq] at hcc
              rcases hcase with hceq | hckl
              · rw [hcc, hceq] at hcip
                rw [← hcf] at hcip
                exact absurd hsrc hcip
              · refine ⟨by rw [hcc]; exact hckl, ?_⟩
                rw [hlf] at hklSet
                rw [hcf]
                exact hklSet
          · rw [hfg] at hcf
            rw [hcf] at hsrc
            exact absurd hsrc (by simp)
        · have hcc2 : c' = c2 := by rw [← hres, hlf]
          rcases resolveForReport_cases env st0 f st2 hrr with
            ⟨hfix, hst2⟩ | ⟨g, hg, hfg, hst2⟩
          · rw [hst2] at hc2
            have hst0 := part1 env.loc st0 c2 hc2 (by rw [← hcc2]; exact hsrc)
            rw [hc] at hst0
            simp only [Option.some.injEq] at hst0
            rw [hst0, ← hcc2] at hcip
            exact absurd hsrc hcip
          · rw [hst2] at hc2
            simp only [Option.some.injEq] at hc2
            rw [← hc2] at hcc2
            rw [hcc2] at hsrc
            exact absurd hsrc (by simp)

/-- The resolver environment reaching the C4 counterexample cache: a GPS
    success exactly at the Seremban point. -/
def envGpsSeremban : LocEnv :=
  { isWindows := true
  , gpsOutcomes := [GpsOutcome.success 267 10199 (some 50)]
  , googleEnabled := false
  , googleResp := none
  , ipResult := none
  , forceGpsResult := none
  , dist := distFlat }

/-- The report environment of the C4 counterexample: GPS now fails, no
    Google step, and the IP services resolve to a point far outside the KL
    area. -/
def envIpRun : ReportEnv :=
  { loc :=
    { isWindows := true
    , gpsOutcomes :=
        [GpsOutcome.failCont, GpsOutcome.failCont,
         GpsOutcome.failCont, GpsOutcome.failCont]
    , googleEnabled := false
    , googleResp := none
    , ipResult := some (130, 10380)
    , forceGpsResult := none
    , dist := distFlat }
  , pushOk := true }

/-- C4 counterexample: a satellite-sourced cached fix at the Seremban point
    (reachable: one accepted GPS fix caches it) is replaced by report_status
    with an ip-sourced fix, although the cached fix was not stale under any
    policy (the cache has no TTL) and was not in the KL bad region, so the
    moved-away exception does not apply: the Seremban-clearing step wipes
    the better-source cache and the post-push caching then stores the IP
    fix. -/
theorem C4_counterexample :
    (getLocation envGpsSeremban ⟨none, 0⟩).state.cache =
      some ⟨serembanCenter, Source.satellite⟩ ∧
    (reportStatus envIpRun
        ⟨some ⟨serembanCenter, Source.satellite⟩, 0⟩).1.cache =
      some ⟨(130, 10380), Source.ip⟩ ∧
    Source.satellite ≠ Source.ip ∧
    ¬(distFlat klCenter serembanCenter < 20000) ∧
    distFlat klCenter (130, 10380) ≥ 20000 :=
  ⟨by decide, by decide, by decide, by decide, by decide⟩

/-- The report environment of the C4 witness: the cached better-source fix
    sits exactly at the KL centre (the bad region), GPS fails, and the IP
    services resolve far outside the KL area, so the moved-away exception
    legitimately fires. -/
def envC4w : ReportEnv :=
  { loc :=
    { isWindows := true
    , gpsOutcomes := [GpsOutcome.failCont]
    , googleEnabled := false
    , googleResp := none
    , ipResult := some (130, 10380)
    , forceGpsResult := none
    , dist := distFlat }
  , pushOk := true }

theorem C4_witness :
    envC4w.loc.dist klCenter
        (⟨klCenter, Source.satellite⟩ : Fix).coord < 20000 ∧
    envC4w.loc.dist klCenter
        (⟨(130, 10380), Source.ip⟩ : Fix).coord ≥ 20000 :=
  C4_amended_ip_never_displaces_better_cache.2 envC4w
    ⟨some ⟨klCenter, Source.satellite⟩, 0⟩
    ⟨klCenter, Source.satellite⟩ ⟨(130, 10380), Source.ip⟩
    rfl (by decide) (by decide) (by decide) rfl

end AntiTheft
